import Mathlib

/- Verification development for the Derma-AI assistant (app.py, seed_data.py).

   The application logic of app.py is shallowly embedded below.  External
   effects (the generation endpoint, the web-search provider, the
   spreadsheet-backed store, wall-clock timestamps) are passed in as explicit
   parameters: a successful external call is `Except.ok`, a raised exception
   is `Except.error`.  Python strings are Lean `String`s; the handful of
   Python string operations used by app.py (`split('\n')`, `startswith`,
   `in`, `replace`, `strip`) are embedded with Python semantics on the
   underlying character lists. -/

namespace DermaAI

/-- Python `str.strip()` whitespace test (ASCII whitespace as used by CPython
    for the characters that can occur here). -/
def pySpace (ch : Char) : Bool :=
  ch = ' ' || ch = '\t' || ch = '\n' || ch = '\r' || ch = '\x0b' || ch = '\x0c'

/-- Strip `pySpace` characters from both ends of a character list. -/
def trimChars (cs : List Char) : List Char :=
  ((cs.dropWhile pySpace).reverse.dropWhile pySpace).reverse

/-- Python `s.strip()`. -/
def pyStrip (s : String) : String :=
  String.mk (trimChars s.data)

/-- Python `s.split(c)` for a single-character separator `c`
    (keeps empty pieces, `"".split(c) = [""]`). -/
def splitOnChar (c : Char) : List Char → List (List Char)
  | [] => [[]]
  | x :: xs =>
    if x = c then [] :: splitOnChar c xs
    else
      match splitOnChar c xs with
      | [] => [[x]]
      | y :: ys => (x :: y) :: ys

/-- Python `full_response.split('\n')`. -/
def splitLinesPy (s : String) : List String :=
  (splitOnChar '\n' s.data).map String.mk

/-- Python `s.startswith(pat)`. -/
def startsWithStr (s pat : String) : Bool :=
  pat.data.isPrefixOf s.data

/-- Contiguous-subsequence test on character lists: `pat` occurs somewhere
    inside `s` (Python `pat in s` on strings). -/
def listContainsSeq (pat : List Char) : List Char → Bool
  | [] => pat.isEmpty
  | x :: xs => pat.isPrefixOf (x :: xs) || listContainsSeq pat xs

/-- Python `pat in s` (substring containment). -/
def strContains (s pat : String) : Bool :=
  listContainsSeq pat.data s.data

/-- Fuelled worker for Python `s.replace(pat, rep)` with a non-empty pattern:
    scan left to right, replacing each non-overlapping occurrence of `pat`.
    The fuel is only a structural-recursion device; with `fuel = s.length`
    it never runs out (each step consumes at least one character). -/
def replaceAllF (rep pat : List Char) : Nat → List Char → List Char
  | _, [] => []
  | 0, s => s
  | fuel + 1, x :: xs =>
    if pat.isPrefixOf (x :: xs) && !pat.isEmpty then
      rep ++ replaceAllF rep pat fuel (xs.drop (pat.length - 1))
    else
      x :: replaceAllF rep pat fuel xs

/-- Python `s.replace(pat, rep)` (all occurrences, non-overlapping, left to
    right; `pat` is non-empty at the single call site in app.py). -/
def pyReplace (s pat rep : String) : String :=
  String.mk (replaceAllF rep.data pat.data s.data.length s.data)

/-- The fixed sentinel token of the response parser (app.py lines 198-200). -/
def sentinelTok : String := "SEARCH:"

/-- app.py lines 198-200, the response-parsing step of the chat turn handler:

    if "SEARCH:" in full_response:
        query_line = [line for line in full_response.split('\n')
                      if line.startswith("SEARCH:")][0]
        search_query = query_line.replace("SEARCH:", "").strip()

    `Except.error` models the uncaught `IndexError` raised by `[0]` when the
    comprehension is empty; `Except.ok none` is the no-query outcome and
    `Except.ok (some q)` the extracted query. -/
def extractQuery (full_response : String) : Except String (Option String) :=
  if strContains full_response sentinelTok then
    match (splitLinesPy full_response).filter
        (fun line => startsWithStr line sentinelTok) with
    | [] => Except.error "IndexError: list index out of range"
    | query_line :: _ =>
      Except.ok (some (pyStrip (pyReplace query_line sentinelTok "")))
  else
    Except.ok none

deriving instance DecidableEq for Except

/-- The check on each search result in app.py line 137:
    `if "amazon.ca" in url and "/dp/" in url`. -/
def amazonMatch (url : String) : Bool :=
  strContains url "amazon.ca" && strContains url "/dp/"

/-- app.py lines 131-144, `search_amazon(query)`.  The external
    `googlesearch.search` call is passed in as `searchProvider`; app.py calls
    it on `f"{query} site:amazon.ca"` with `num_results=3`, iterates over the
    returned URLs in order, returns the first one containing both
    `"amazon.ca"` and `"/dp/"`, returns `None` when none matches, and returns
    `None` when the search call raises. -/
def search_amazon (query : String)
    (searchProvider : String → Except String (List String)) : Option String :=
  match searchProvider (query ++ " site:amazon.ca") with
  | Except.error _ => none
  | Except.ok search_results => search_results.find? amazonMatch

/-- Follows the spec's words (for comparison with `amazonMatch`): drop a URL
    scheme prefix, if any. -/
def dropScheme (cs : List Char) : List Char :=
  if ("https://".data).isPrefixOf cs then cs.drop 8
  else if ("http://".data).isPrefixOf cs then cs.drop 7
  else cs

/-- Follows the spec's words: the domain component of a URL. -/
def urlDomain (url : String) : String :=
  String.mk ((dropScheme url.data).takeWhile (fun ch => !(ch = '/')))

/-- Follows the spec's words: the path component of a URL (everything from
    the first `/` after the domain). -/
def urlPath (url : String) : String :=
  String.mk ((dropScheme url.data).dropWhile (fun ch => !(ch = '/')))

/-- Follows the spec's words: "the first result URL whose domain matches the
    restricted retailer and whose path indicates a product-detail page". -/
def specQualifyingUrl (url : String) : Bool :=
  (urlDomain url = "amazon.ca") && strContains (urlPath url) "/dp/"

/-- One row of the `interaction_logs` worksheet, in the positional column
    order built by `log_interaction` (app.py lines 77-87): `str(now)`,
    `now.isoformat()`, user id, input type, query, analysis, severity,
    product name, product link.  The two `None`-able trailing columns are
    `Option`s. -/
structure LogRow where
  ts : String
  created_at : String
  user_id : String
  input_type : String
  query : String
  analysis : String
  severity : Int
  product_name : Option String
  product_link : Option String
deriving DecidableEq, Repr

/-- Outcome of one `log_interaction` call: the row it built, the row actually
    appended to the store (none when the append raised), and the non-fatal
    warning shown on failure. -/
structure LogEffect where
  attemptedRow : LogRow
  appendedRow : Option LogRow
  warning : Option String
deriving DecidableEq, Repr

/-- app.py line 41, the hardcoded user id. -/
def USER_ID : String := "12345678-1234-1234-1234-1234567890ab"

/-- app.py lines 73-90, `log_interaction(...)`.  The spreadsheet append is
    passed in as `store` (`Except.error` models a raised exception anywhere
    inside the `try` block); the two `datetime.now()` renderings are the
    ambient inputs `now` and `iso`.  The whole body is wrapped in
    `try/except`, so the function itself always returns: on store failure it
    only records a warning. -/
def log_interaction (store : Except String Unit) (now iso : String)
    (user_id input_type query analysis : String) (severity : Int)
    (product_name product_link : Option String) : LogEffect :=
  let new_row : LogRow :=
    { ts := now, created_at := iso, user_id := user_id,
      input_type := input_type, query := query, analysis := analysis,
      severity := severity, product_name := product_name,
      product_link := product_link }
  match store with
  | Except.ok _ =>
    { attemptedRow := new_row, appendedRow := some new_row, warning := none }
  | Except.error e =>
    { attemptedRow := new_row, appendedRow := none,
      warning := some ("Failed to log interaction to Google Sheet: " ++ e) }

/-- A JSON document, as stored in the `current_concerns_json` column and
    deserialized by `json.loads` in `get_user_data` (app.py line 61). -/
inductive Json where
  | null
  | bool (b : Bool)
  | num (n : Int)
  | str (s : String)
  | arr (elems : List Json)
  | obj (fields : List (String × Json))

/-- A run of `n` spaces. -/
def spaces (n : Nat) : String :=
  String.mk (List.replicate n ' ')

/-- JSON string escaping for the characters that need it. -/
def escChar (ch : Char) : List Char :=
  if ch = '"' then ['\\', '"']
  else if ch = '\\' then ['\\', '\\']
  else if ch = '\n' then ['\\', 'n']
  else if ch = '\t' then ['\\', 't']
  else if ch = '\r' then ['\\', 'r']
  else [ch]

/-- Escape a string for inclusion in JSON output. -/
def escJson (s : String) : String :=
  String.mk ((s.data.map escChar).flatten)

mutual

/-- Python `json.dumps(v, indent=2)` rendering, at current indent `ind`
    (the separators of `indent` mode are `,` plus newline and `: `). -/
def jsonDump (ind : Nat) : Json → String
  | Json.null => "null"
  | Json.bool b => if b then "true" else "false"
  | Json.num n => toString n
  | Json.str s => "\"" ++ escJson s ++ "\""
  | Json.arr [] => "[]"
  | Json.arr (e :: es) =>
    "[\n" ++ jsonDumpElems (ind + 2) e es ++ "\n" ++ spaces ind ++ "]"
  | Json.obj [] => "\x7b\x7d"
  | Json.obj (f :: fs) =>
    "\x7b\n" ++ jsonDumpFields (ind + 2) f fs ++ "\n" ++ spaces ind ++ "\x7d"
termination_by j => sizeOf j

/-- Render the elements of a non-empty JSON array, one per line. -/
def jsonDumpElems (ind : Nat) : Json → List Json → String
  | e, [] => spaces ind ++ jsonDump ind e
  | e, e2 :: es =>
    spaces ind ++ jsonDump ind e ++ ",\n" ++ jsonDumpElems ind e2 es
termination_by e es => sizeOf e + sizeOf es

/-- Render the fields of a non-empty JSON object, one per line. -/
def jsonDumpFields (ind : Nat) : (String × Json) → List (String × Json) → String
  | (k, v), [] => spaces ind ++ "\"" ++ escJson k ++ "\": " ++ jsonDump ind v
  | (k, v), f :: fs =>
    spaces ind ++ "\"" ++ escJson k ++ "\": " ++ jsonDump ind v ++ ",\n" ++
      jsonDumpFields ind f fs
termination_by f fs => sizeOf f + sizeOf fs

end

/-- One row of the `routine_audit` worksheet (seed_data.py line 101), as a
    record in the list produced by `get_user_data`. -/
structure AuditEntry where
  user_id : String
  product_name : String
  category : String
  status : String
  notes : String
deriving DecidableEq, Repr

/-- The skin-profile dictionary produced by `get_user_data` (app.py lines
    60-63).  Every field read by `construct_system_prompt` goes through
    `dict.get` with a default, so each is an `Option` (absent key = `none`). -/
structure SkinProfile where
  barrier_status : Option String
  current_concerns : Option Json
  active_medications : Option (List String)
  avoid_ingredients : Option (List String)

/-- app.py lines 94-129, `construct_system_prompt(skin_profile,
    routine_audit)`.  `none` for the profile models a falsy `skin_profile`
    (`if not skin_profile`).  The f-string template is reproduced verbatim,
    including its four-space source indentation, and the final `.strip()`. -/
def construct_system_prompt (skin_profile : Option SkinProfile)
    (routine_audit : List AuditEntry) : String :=
  match skin_profile with
  | none => "You are a helpful dermatological assistant."
  | some sp =>
    let profile_str := jsonDump 0 (sp.current_concerns.getD (Json.obj []))
    let audit_str := String.intercalate "\n"
      (routine_audit.map (fun item =>
        "- " ++ item.product_name ++ " (" ++ item.status ++ "): " ++
          item.notes))
    let prompt :=
      "\n    You are a highly personalized, localized Canadian Dermatological Assistant for Devashree.\n    Your goal is to analyze her skin issues, remember her history, and recommend budget-friendly products from Amazon Canada.\n    **GUARDRAILS:**\n    1.  **NEVER Refuse to Help:** If an issue seems severe, label it \"High Severity\" but always provide the best possible over-the-counter palliative care advice.\n    2.  **Amazon Canada Only:** All product searches must be for `amazon.ca`.\n    3.  **Budget-Friendly:** Prioritize products under $25 CAD.\n    4.  **Context is Key:** You MUST use the user's history below to inform your diagnosis.\n    ---\n    **DEEP CONTEXT: Devashree's Current Skin Profile**\n    -   **Barrier Status:** " ++
      sp.barrier_status.getD "N/A" ++
      "\n    -   **Active Medications:** " ++
      String.intercalate ", " (sp.active_medications.getD []) ++
      "\n    -   **Detailed Concerns:**\n        ```json\n        " ++
      profile_str ++
      "\n        ```\n    -   **Ingredients to Avoid:** " ++
      String.intercalate ", " (sp.avoid_ingredients.getD []) ++
      "\n    ---\n    **PRODUCT DATABASE: Routine Audit**\n    " ++
      audit_str ++
      "\n    ---\n    **YOUR PROTOCOL:**\n    1.  **Analyze Input:** Review the user's text or image.\n    2.  **Diagnose:** Identify the issue.\n    3.  **Cross-Reference:** Check against her `avoid_ingredients` and `routine_audit`.\n    4.  **Determine Action:** If a product is needed, formulate a search query on a new line formatted EXACTLY as `SEARCH: <product_type> <key_ingredient> under $25 CAD`.\n    5.  **Respond:** Provide your analysis and the search query if needed.\n    "
    pyStrip prompt

/-- One `st.session_state.messages` entry: `{"role": ..., "content": ...}`. -/
structure Msg where
  role : String
  content : String
deriving DecidableEq, Repr

/-- One message in the request to the generation endpoint, in the Gemini
    history shape `{"role": ..., "parts": [...]}` (app.py line 185). -/
structure GMsg where
  role : String
  parts : List String
deriving DecidableEq, Repr

/-- app.py line 185: the history handed to `start_chat`, built from the
    session transcript by re-tagging roles (`"user"` stays, everything else
    becomes `"model"`) and wrapping each content string in a parts list. -/
def toGeminiHistory (msgs : List Msg) : List GMsg :=
  msgs.map (fun msg =>
    { role := if msg.role = "user" then "user" else "model",
      parts := [msg.content] })

/-- The full role-tagged message sequence delivered to the generation
    endpoint for one text turn: app.py appends the new user message to the
    transcript (line 176), builds the Gemini history from the whole
    transcript (line 185), passes it to `start_chat` (line 188), and then
    `send_message(prompt)` (line 189) appends the prompt as one more user
    message to the request. -/
def deliveredMessages (msgs : List Msg) (prompt : String) : List GMsg :=
  toGeminiHistory (msgs ++ [{ role := "user", content := prompt }]) ++
    [{ role := "user", parts := [prompt] }]

/-- Observable outcome of one completed text turn: the session transcript at
    the end of the handler, the displayed `full_response`, the messages
    delivered to the generation endpoint, the rows passed to
    `log_interaction`, the rows actually appended to the store, and the
    warnings shown. -/
structure TurnResult where
  transcript : List Msg
  response : String
  delivered : List GMsg
  logCalls : List LogRow
  appendedRows : List LogRow
  warnings : List String
deriving DecidableEq, Repr

/-- app.py lines 201-212: the part of the text-turn handler after the
    sentinel parse, given the parsed query option.  `some search_query`
    triggers `search_amazon` and logs severity 5 with the query as the
    product-name column (lines 201-208); `none` logs severity 3 with empty
    product columns (line 210).  The `if link = ""` split mirrors Python's
    truthiness test `if product_link:` on line 202. -/
def chatTurnBody (msgs1 : List Msg) (delivered : List GMsg)
    (full_response : String) (maybeQuery : Option String)
    (searchProvider : String → Except String (List String))
    (store : Except String Unit) (now iso prompt : String) : TurnResult :=
  match maybeQuery with
  | some search_query =>
    let product_link := search_amazon search_query searchProvider
    (match product_link with
     | some link =>
       if link = "" then
         let eff := log_interaction store now iso USER_ID "text" prompt
           full_response 5 (some search_query) none
         { transcript :=
             msgs1 ++ [{ role := "assistant", content := full_response }],
           response := full_response, delivered := delivered,
           logCalls := [eff.attemptedRow],
           appendedRows := eff.appendedRow.toList,
           warnings := eff.warning.toList }
       else
         let eff := log_interaction store now iso USER_ID "text" prompt
           full_response 5 (some search_query) (some link)
         { transcript :=
             msgs1 ++
               [{ role := "assistant",
                  content := "Here is a recommended product: [View on Amazon.ca](" ++ link ++ ")" },
                { role := "assistant", content := full_response }],
           response := full_response, delivered := delivered,
           logCalls := [eff.attemptedRow],
           appendedRows := eff.appendedRow.toList,
           warnings := eff.warning.toList }
     | none =>
       let eff := log_interaction store now iso USER_ID "text" prompt
         full_response 5 (some search_query) none
       { transcript :=
           msgs1 ++ [{ role := "assistant", content := full_response }],
         response := full_response, delivered := delivered,
         logCalls := [eff.attemptedRow],
         appendedRows := eff.appendedRow.toList,
         warnings := eff.warning.toList })
  | none =>
    let eff := log_interaction store now iso USER_ID "text" prompt
      full_response 3 none none
    { transcript :=
        msgs1 ++ [{ role := "assistant", content := full_response }],
      response := full_response, delivered := delivered,
      logCalls := [eff.attemptedRow],
      appendedRows := eff.appendedRow.toList,
      warnings := eff.warning.toList }

/-- app.py lines 175-212: one text turn of the chat handler, from the
    `st.chat_input` prompt to the final transcript append.

    `genOutcome` is the streamed generation call (lines 188-193): `ok` is the
    list of chunk texts concatenated into `full_response`, `error` is a
    raised exception, which the handler catches and converts into the fixed
    fallback string (lines 194-196).  The sentinel parse (lines 198-200) is
    `extractQuery`; its `IndexError` propagates out of the handler
    (`Except.error`).  All remaining branches always complete
    (`Except.ok`).  `fullResponseOf` is app.py lines 187-196: the streamed
    chunks accumulated into `full_response`, or the caught-error fallback
    string. -/
def fullResponseOf (genOutcome : Except String (List String)) : String :=
  match genOutcome with
  | Except.ok chunks => String.join chunks
  | Except.error _ => "Sorry, I encountered an error."

def chatTurn (msgs0 : List Msg) (prompt : String)
    (genOutcome : Except String (List String))
    (searchProvider : String → Except String (List String))
    (store : Except String Unit) (now iso : String) :
    Except String TurnResult :=
  let msgs1 := msgs0 ++ [{ role := "user", content := prompt }]
  let delivered := deliveredMessages msgs0 prompt
  let full_response := fullResponseOf genOutcome
  match extractQuery full_response with
  | Except.error e => Except.error e
  | Except.ok maybeQuery =>
    Except.ok (chatTurnBody msgs1 delivered full_response maybeQuery
      searchProvider store now iso prompt)

/-- Observable outcome of one image-analysis turn. -/
structure ImageTurnResult where
  transcript : List Msg
  logCalls : List LogRow
  errorShown : Option String
deriving DecidableEq, Repr

/-- app.py lines 219-232: the image-analysis handler.  On a successful
    `generate_content` call it appends a user message naming the file and an
    assistant message with the analysis to the transcript and reruns; on
    failure it shows an error.  No branch calls `log_interaction`. -/
def imageTurn (msgs0 : List Msg) (fileName : String)
    (genOutcome : Except String String) : ImageTurnResult :=
  match genOutcome with
  | Except.ok analysis_result =>
    { transcript :=
        msgs0 ++
          [{ role := "user", content := " (Image: " ++ fileName ++ ")" },
           { role := "assistant", content := analysis_result }],
      logCalls := [], errorShown := none }
  | Except.error e =>
    { transcript := msgs0, logCalls := [],
      errorShown := some ("Gemini image analysis failed: " ++ e) }

/-- Whether a text turn ran to completion (no uncaught exception). -/
def completesOk : Except String TurnResult → Bool
  | Except.ok _ => true
  | Except.error _ => false

/-- The log row of the no-search sample turn below. -/
def sampleRowThree : LogRow :=
  { ts := "t1", created_at := "t2", user_id := USER_ID, input_type := "text",
    query := "hi", analysis := "All good.", severity := 3,
    product_name := none, product_link := none }

/-- The result of the text turn `chatTurn [] "hi" (ok ["All good."]) ...`:
    no sentinel line, severity-3 log row. -/
def sampleResultThree : TurnResult :=
  { transcript := [{ role := "user", content := "hi" },
                   { role := "assistant", content := "All good." }],
    response := "All good.",
    delivered := [{ role := "user", parts := ["hi"] },
                  { role := "user", parts := ["hi"] }],
    logCalls := [sampleRowThree], appendedRows := [sampleRowThree],
    warnings := [] }

/-- The log row of the sentinel sample turn below. -/
def sampleRowFive : LogRow :=
  { ts := "t1", created_at := "t2", user_id := USER_ID, input_type := "text",
    query := "hi", analysis := "SEARCH: cream", severity := 5,
    product_name := some "cream", product_link := none }

/-- The result of the text turn `chatTurn [] "hi" (ok ["SEARCH: cream"]) ...`
    with a no-match search stub: severity-5 log row carrying the extracted
    query as the product-name column. -/
def sampleResultFive : TurnResult :=
  { transcript := [{ role := "user", content := "hi" },
                   { role := "assistant", content := "SEARCH: cream" }],
    response := "SEARCH: cream",
    delivered := [{ role := "user", parts := ["hi"] },
                  { role := "user", parts := ["hi"] }],
    logCalls := [sampleRowFive], appendedRows := [sampleRowFive],
    warnings := [] }

/- ------------------------------------------------------------------ -/
/- Helper lemmas                                                      -/
/- ------------------------------------------------------------------ -/

theorem log_interaction_attempted (store : Except String Unit)
    (now iso uid ity q a : String) (sev : Int) (pn pl : Option String) :
    (log_interaction store now iso uid ity q a sev pn pl).attemptedRow =
      { ts := now, created_at := iso, user_id := uid, input_type := ity,
        query := q, analysis := a, severity := sev, product_name := pn,
        product_link := pl } := by
  cases store <;> rfl

theorem splitOnChar_pieces_within (c : Char) (cs : List Char) :
    (∃ y ys, splitOnChar c cs = y :: ys ∧ y <+: cs) ∧
      ∀ p ∈ splitOnChar c cs, p <:+: cs := by
  induction cs with
  | nil =>
    refine ⟨⟨[], [], rfl, List.nil_prefix⟩, ?_⟩
    intro p hp
    simp only [splitOnChar, List.mem_singleton] at hp
    simp [hp]
  | cons x xs ih =>
    obtain ⟨⟨y, ys, hsplit, hypre⟩, hinf⟩ := ih
    by_cases hx : x = c
    · refine ⟨⟨[], splitOnChar c xs, by simp [splitOnChar, hx],
        List.nil_prefix⟩, ?_⟩
      intro p hp
      simp only [splitOnChar, hx, if_pos] at hp
      rcases List.mem_cons.mp hp with h | h
      · simp [h]
      · exact List.infix_cons (hinf p h)
    · have hstep : splitOnChar c (x :: xs) = (x :: y) :: ys := by
        simp [splitOnChar, hx, hsplit]
      have hxy : x :: y <+: x :: xs := by
        obtain ⟨t, ht⟩ := hypre
        exact ⟨t, by simp [ht]⟩
      refine ⟨⟨x :: y, ys, hstep, hxy⟩, ?_⟩
      intro p hp
      rw [hstep] at hp
      rcases List.mem_cons.mp hp with h | h
      · subst h
        exact hxy.isInfix
      · exact List.infix_cons (hinf p (hsplit ▸ List.mem_cons_of_mem y h))

theorem contains_of_within (pat s : List Char) (h : pat <:+: s) :
    listContainsSeq pat s = true := by
  induction s with
  | nil =>
    have hp := List.infix_nil.mp h
    simp [listContainsSeq, hp, List.isEmpty]
  | cons x xs ih =>
    rcases List.infix_cons_iff.mp h with hpre | hinf
    · simp [listContainsSeq, List.isPrefixOf_iff_prefix.mpr hpre]
    · simp [listContainsSeq, ih hinf]

theorem strContains_of_line (text pat l : String)
    (hmem : l ∈ splitLinesPy text) (hpre : startsWithStr l pat = true) :
    strContains text pat = true := by
  obtain ⟨p, hp, hlp⟩ := List.mem_map.mp hmem
  subst hlp
  have hinfix : p <:+: text.data :=
    (splitOnChar_pieces_within '\n' text.data).2 p hp
  have hpp : pat.data <+: p := List.isPrefixOf_iff_prefix.mp hpre
  exact contains_of_within pat.data text.data (hpp.isInfix.trans hinfix)

theorem extractQuery_ok_none (fr : String)
    (h : extractQuery fr = Except.ok none) :
    strContains fr sentinelTok = false := by
  by_cases hc : strContains fr sentinelTok = true
  · exfalso
    unfold extractQuery at h
    rw [if_pos hc] at h
    cases hfil : (splitLinesPy fr).filter
        (fun line => startsWithStr line sentinelTok) with
    | nil => rw [hfil] at h; exact Except.noConfusion h
    | cons a as => rw [hfil] at h; simp at h
  · simp only [Bool.not_eq_true] at hc
    exact hc

theorem extractQuery_ok_some (fr q : String)
    (h : extractQuery fr = Except.ok (some q)) :
    strContains fr sentinelTok = true := by
  by_cases hc : strContains fr sentinelTok = true
  · exact hc
  · exfalso
    unfold extractQuery at h
    rw [if_neg hc] at h
    simp at h

theorem chatTurnBody_response (msgs1 : List Msg) (delivered : List GMsg)
    (fr : String) (mq : Option String)
    (sp : String → Except String (List String)) (store : Except String Unit)
    (now iso prompt : String) :
    (chatTurnBody msgs1 delivered fr mq sp store now iso prompt).response =
      fr := by
  unfold chatTurnBody
  cases mq with
  | none => rfl
  | some q =>
    simp only []
    cases search_amazon q sp with
    | none => rfl
    | some link =>
      by_cases hl : link = "" <;> simp [hl]

theorem chatTurnBody_logCalls_none (msgs1 : List Msg) (delivered : List GMsg)
    (fr : String) (sp : String → Except String (List String))
    (store : Except String Unit) (now iso prompt : String) :
    (chatTurnBody msgs1 delivered fr none sp store now iso prompt).logCalls =
      [{ ts := now, created_at := iso, user_id := USER_ID,
         input_type := "text", query := prompt, analysis := fr,
         severity := 3, product_name := none, product_link := none }] := by
  unfold chatTurnBody
  simp [log_interaction_attempted]

theorem chatTurnBody_logCalls_some (msgs1 : List Msg) (delivered : List GMsg)
    (fr q : String) (sp : String → Except String (List String))
    (store : Except String Unit) (now iso prompt : String) :
    ∃ pl, (chatTurnBody msgs1 delivered fr (some q) sp store now iso
        prompt).logCalls =
      [{ ts := now, created_at := iso, user_id := USER_ID,
         input_type := "text", query := prompt, analysis := fr,
         severity := 5, product_name := some q, product_link := pl }] := by
  unfold chatTurnBody
  simp only []
  cases search_amazon q sp with
  | none => exact ⟨none, by simp [log_interaction_attempted]⟩
  | some link =>
    by_cases hl : link = ""
    · exact ⟨none, by simp [hl, log_interaction_attempted]⟩
    · exact ⟨some link, by simp [hl, log_interaction_attempted]⟩

theorem chatTurn_ok_inv (msgs0 : List Msg) (prompt : String)
    (gen : Except String (List String))
    (sp : String → Except String (List String)) (store : Except String Unit)
    (now iso : String) (r : TurnResult)
    (h : chatTurn msgs0 prompt gen sp store now iso = Except.ok r) :
    ∃ mq, extractQuery (fullResponseOf gen) = Except.ok mq ∧
      r = chatTurnBody (msgs0 ++ [{ role := "user", content := prompt }])
        (deliveredMessages msgs0 prompt) (fullResponseOf gen) mq sp store
        now iso prompt := by
  simp only [chatTurn] at h
  cases hq : extractQuery (fullResponseOf gen) with
  | error e => rw [hq] at h; exact Except.noConfusion h
  | ok mq =>
    rw [hq] at h
    refine ⟨mq, rfl, ?_⟩
    injection h with h2
    exact h2.symm

/- ------------------------------------------------------------------ -/
/- Claim theorems                                                     -/
/- ------------------------------------------------------------------ -/

/-- C1: the claim states that a response text in which no line begins with
    "SEARCH:" yields no-query and completes without failure, including texts
    where "SEARCH:" occurs only mid-line.  The code violates this: on the
    response `"foo SEARCH: bar"` (no line begins with the sentinel, the
    substring occurs mid-line) the substring guard on line 198 is taken, the
    line comprehension on line 199 is empty, and indexing it raises an
    uncaught IndexError, so the turn handler crashes instead of returning
    no-query. -/
theorem sentinel_midline_crash :
    ((splitLinesPy "foo SEARCH: bar").all
        (fun line => !(startsWithStr line sentinelTok))) = true ∧
      chatTurn [] "hi" (Except.ok ["foo SEARCH: bar"])
          (fun _ => Except.ok []) (Except.ok ()) "t1" "t2" =
        Except.error "IndexError: list index out of range" := by
  decide

/-- C2 counterexample: on the single-line response
    `"SEARCH: foo SEARCH: bar"` the code extracts `"foo  bar"` — the second
    "SEARCH:" occurrence inside the line is removed too (Python
    `str.replace` removes all occurrences), contradicting the claim that
    later occurrences are preserved in the query. -/
theorem query_token_removal_cex :
    extractQuery "SEARCH: foo SEARCH: bar" = Except.ok (some "foo  bar") ∧
      "foo  bar" ≠ "foo SEARCH: bar" := by
  decide

/-- C2 (amended): for every response text with at least one line beginning
    with "SEARCH:", the extracted query equals the first such line with
    every occurrence of "SEARCH:" removed and surrounding whitespace
    stripped; exactly one query is recognized (the first sentinel line
    wins).  The hypothesis records that the ordered line filter of app.py
    line 199 returns `l` first. -/
theorem extract_query_first_line (text l : String) (rest : List String)
    (h : (splitLinesPy text).filter
        (fun line => startsWithStr line sentinelTok) = l :: rest) :
    extractQuery text =
      Except.ok (some (pyStrip (pyReplace l sentinelTok ""))) := by
  have hmem : l ∈ (splitLinesPy text).filter
      (fun line => startsWithStr line sentinelTok) := by
    rw [h]; exact List.mem_cons_self l rest
  have hmem2 := List.mem_filter.mp hmem
  have hc : strContains text sentinelTok = true :=
    strContains_of_line text sentinelTok l hmem2.1 hmem2.2
  unfold extractQuery
  rw [if_pos hc, h]

/-- C2 witness: on `"x\nSEARCH: a\nSEARCH: b"` the first sentinel line wins
    and the query is `"a"`. -/
theorem extract_query_first_line_w :
    extractQuery "x\nSEARCH: a\nSEARCH: b" = Except.ok (some "a") := by
  rw [extract_query_first_line "x\nSEARCH: a\nSEARCH: b" "SEARCH: a"
    ["SEARCH: b"] (by decide)]
  decide

/-- C3 counterexample: a completed image-analysis turn (successful
    generation, transcript extended by the user image message and the
    assistant analysis) appends zero rows to the interaction log, not
    exactly one: the image handler of app.py lines 219-232 never calls
    `log_interaction`. -/
theorem image_turn_no_log_cex :
    (imageTurn [] "skin.png" (Except.ok "Looks mild")).transcript =
        [{ role := "user", content := " (Image: skin.png)" },
         { role := "assistant", content := "Looks mild" }] ∧
      (imageTurn [] "skin.png" (Except.ok "Looks mild")).logCalls.length =
        0 := by
  decide

/-- C3 (amended): every completed text turn issues exactly one
    `log_interaction` call, while image-analysis turns issue none — the
    one-row-per-turn audit trail holds only for text turns. -/
theorem one_log_call_per_text_turn (msgs0 : List Msg) (prompt : String)
    (gen : Except String (List String))
    (sp : String → Except String (List String)) (store : Except String Unit)
    (now iso : String) (r : TurnResult)
    (h : chatTurn msgs0 prompt gen sp store now iso = Except.ok r) :
    r.logCalls.length = 1 ∧
      ∀ (m : List Msg) (fn : String) (g : Except String String),
        (imageTurn m fn g).logCalls.length = 0 := by
  constructor
  · obtain ⟨mq, hq, hr⟩ := chatTurn_ok_inv msgs0 prompt gen sp store now iso
      r h
    subst hr
    cases mq with
    | none => rw [chatTurnBody_logCalls_none]; rfl
    | some q =>
      obtain ⟨pl, hlog⟩ := chatTurnBody_logCalls_some
        (msgs0 ++ [{ role := "user", content := prompt }])
        (deliveredMessages msgs0 prompt) (fullResponseOf gen) q sp store
        now iso prompt
      rw [hlog]
      rfl
  · intro m fn g
    cases g <;> rfl

/-- C3 witness: the concrete no-search text turn completes with exactly one
    log call. -/
theorem one_log_call_per_text_turn_w :
    sampleResultThree.logCalls.length = 1 :=
  (one_log_call_per_text_turn [] "hi" (Except.ok ["All good."])
    (fun _ => Except.ok []) (Except.ok ()) "t1" "t2" sampleResultThree
    (by decide)).1

/-- C4 counterexample: with an empty prior transcript and the new user
    message `"hi"`, the sequence delivered to the generation endpoint
    contains two copies of the new user message, not the claimed single
    copy: line 176 appends the prompt to the transcript before line 185
    rebuilds the history from it, and `send_message(prompt)` on line 189
    sends the prompt again. -/
theorem delivered_duplicate_cex :
    deliveredMessages [] "hi" =
        [{ role := "user", parts := ["hi"] },
         { role := "user", parts := ["hi"] }] ∧
      deliveredMessages [] "hi" ≠
        toGeminiHistory [] ++ [{ role := "user", parts := ["hi"] }] := by
  decide

/-- C4 (amended): for every text turn, the role-tagged message sequence
    delivered to the generation endpoint equals the prior session transcript
    in conversation order followed by two copies of the new user message —
    the new user turn is duplicated between the replayed history and the
    sent message. -/
theorem delivered_duplicates_new_user_message (msgs0 : List Msg)
    (prompt : String) :
    deliveredMessages msgs0 prompt =
      toGeminiHistory msgs0 ++
        [{ role := "user", parts := [prompt] },
         { role := "user", parts := [prompt] }] := by
  simp [deliveredMessages, toGeminiHistory]

/-- C5 counterexample: `search_amazon` checks `"amazon.ca"` and `"/dp/"` by
    substring containment anywhere in the URL, not as a domain plus path
    parse.  On a search stub returning one URL whose domain is
    `evil.example` (with `amazon.ca/dp/` only in the path), the code
    returns that URL even though its domain is not the restricted
    retailer. -/
theorem search_amazon_domain_cex :
    search_amazon "cream"
        (fun _ => Except.ok ["https://evil.example/amazon.ca/dp/B000123"]) =
      some "https://evil.example/amazon.ca/dp/B000123" ∧
      specQualifyingUrl "https://evil.example/amazon.ca/dp/B000123" =
        false := by
  decide

/-- C5 (amended): `search_amazon` returns the first result URL containing
    both `"amazon.ca"` and `"/dp/"` as substrings anywhere in the URL (a
    containment test, not a domain/path parse), returns no-result when no
    returned result qualifies, and returns no-result without raising when
    the search call fails. -/
theorem search_amazon_substring_first :
    (∀ (query err : String),
      search_amazon query (fun _ => Except.error err) = none) ∧
      (∀ (query : String) (results : List String),
        (∀ u ∈ results, amazonMatch u = false) →
          search_amazon query (fun _ => Except.ok results) = none) ∧
      ∀ (query : String) (results : List String) (u : String),
        search_amazon query (fun _ => Except.ok results) = some u →
          amazonMatch u = true ∧
            ∃ pre suf, results = pre ++ u :: suf ∧
              ∀ v ∈ pre, amazonMatch v = false := by
  refine ⟨fun query err => rfl, ?_, ?_⟩
  · intro query results hnone
    unfold search_amazon
    simp only []
    exact List.find?_eq_none.mpr (by intro x hx; simp [hnone x hx])
  · intro query results u h
    unfold search_amazon at h
    simp only [] at h
    obtain ⟨hpu, pre, suf, hsplit, hprev⟩ := List.find?_eq_some.mp h
    refine ⟨hpu, pre, suf, hsplit, ?_⟩
    intro v hv
    have := hprev v hv
    simpa using this

/-- C5 witness: a failing search yields no-result; a result list with no
    qualifying URL yields no-result; the spec's example product URL
    qualifies. -/
theorem search_amazon_substring_first_w :
    search_amazon "x" (fun _ => Except.error "boom") = none ∧
      search_amazon "x" (fun _ => Except.ok ["https://amazon.ca/s?k=foo"]) =
        none ∧
      amazonMatch "https://amazon.ca/dp/B000123" = true :=
  ⟨search_amazon_substring_first.1 "x" "boom",
   search_amazon_substring_first.2.1 "x" ["https://amazon.ca/s?k=foo"]
     (by decide),
   (search_amazon_substring_first.2.2 "x"
     ["https://amazon.ca/s?k=foo", "https://amazon.ca/dp/B000123"]
     "https://amazon.ca/dp/B000123" (by decide)).1⟩

/-- C6: `log_interaction` never raises or propagates an error to its
    caller: on a failing store append it records no row and reports only a
    non-fatal warning, and whether the chat flow completes is independent of
    the store's behaviour. -/
theorem log_interaction_never_raises :
    (∀ (e now iso uid ity q a : String) (sev : Int) (pn pl : Option String),
      (log_interaction (Except.error e) now iso uid ity q a sev pn
          pl).appendedRow = none ∧
        (log_interaction (Except.error e) now iso uid ity q a sev pn
            pl).warning =
          some ("Failed to log interaction to Google Sheet: " ++ e)) ∧
      ∀ (msgs0 : List Msg) (prompt : String)
        (gen : Except String (List String))
        (sp : String → Except String (List String))
        (store store2 : Except String Unit) (now iso : String),
        completesOk (chatTurn msgs0 prompt gen sp store now iso) =
          completesOk (chatTurn msgs0 prompt gen sp store2 now iso) := by
  constructor
  · intro e now iso uid ity q a sev pn pl
    exact ⟨rfl, rfl⟩
  · intro msgs0 prompt gen sp store store2 now iso
    simp only [chatTurn]
    cases extractQuery (fullResponseOf gen) <;> rfl

/-- C7: when the generation call fails with any error, the text turn still
    completes, the assistant response is the fixed fallback string
    "Sorry, I encountered an error.", and the turn is logged exactly once
    with that fallback string as the analysis and severity 3. -/
theorem gen_failure_fallback (msgs0 : List Msg) (prompt e : String)
    (sp : String → Except String (List String)) (store : Except String Unit)
    (now iso : String) :
    ∃ r, chatTurn msgs0 prompt (Except.error e) sp store now iso =
        Except.ok r ∧
      r.response = "Sorry, I encountered an error." ∧
      r.logCalls.map LogRow.analysis = ["Sorry, I encountered an error."] ∧
      r.logCalls.map LogRow.severity = [3] := by
  cases store <;> exact ⟨_, rfl, rfl, rfl, rfl⟩

/-- C8: with no profile available, `construct_system_prompt` returns the
    generic fallback prompt string, independent of the audit data and
    without error. -/
theorem construct_system_prompt_no_profile (audit : List AuditEntry) :
    construct_system_prompt none audit =
      "You are a helpful dermatological assistant." := rfl

/-- C9: `construct_system_prompt` is deterministic — two evaluations on
    equal profile and audit inputs produce identical prompt strings (the
    embedding exhibits it as a pure function of exactly these two inputs,
    with no ambient state or randomness). -/
theorem construct_system_prompt_deterministic (p q : Option SkinProfile)
    (a b : List AuditEntry) (hp : p = q) (ha : a = b) :
    construct_system_prompt p a = construct_system_prompt q b := by
  rw [hp, ha]

/-- C9 witness: the two evaluations on concrete equal inputs coincide. -/
theorem construct_system_prompt_deterministic_w :
    construct_system_prompt none [] = construct_system_prompt none [] :=
  construct_system_prompt_deterministic none none [] [] rfl rfl

/-- C10: for every completed text turn, each logged row's severity is 5
    exactly when the response contains the substring "SEARCH:" (whether or
    not a product link is resolved) and 3 otherwise, and a populated
    product-name column always equals the query extracted by the sentinel
    parse of the response, not a resolved product name. -/
theorem logged_severity_constant (msgs0 : List Msg) (prompt : String)
    (gen : Except String (List String))
    (sp : String → Except String (List String)) (store : Except String Unit)
    (now iso : String) (r : TurnResult)
    (h : chatTurn msgs0 prompt gen sp store now iso = Except.ok r)
    (row : LogRow) (hrow : row ∈ r.logCalls) :
    row.severity = (if strContains r.response sentinelTok then 5 else 3) ∧
      ∀ q, row.product_name = some q →
        extractQuery r.response = Except.ok (some q) := by
  obtain ⟨mq, hq, hr⟩ := chatTurn_ok_inv msgs0 prompt gen sp store now iso
    r h
  subst hr
  rw [chatTurnBody_response]
  cases mq with
  | none =>
    rw [chatTurnBody_logCalls_none] at hrow
    rw [List.mem_singleton] at hrow
    subst hrow
    rw [extractQuery_ok_none (fullResponseOf gen) hq]
    refine ⟨rfl, ?_⟩
    intro q hq2
    exact Option.noConfusion hq2
  | some q =>
    obtain ⟨pl, hlog⟩ := chatTurnBody_logCalls_some
      (msgs0 ++ [{ role := "user", content := prompt }])
      (deliveredMessages msgs0 prompt) (fullResponseOf gen) q sp store now
      iso prompt
    rw [hlog, List.mem_singleton] at hrow
    subst hrow
    rw [extractQuery_ok_some (fullResponseOf gen) q hq]
    refine ⟨rfl, ?_⟩
    intro q2 hq2
    have : q2 = q := by
      simpa using hq2.symm
    rw [this]
    exact hq

/-- C10 witness: in the concrete sentinel turn, the single logged row has
    severity 5 as the response contains "SEARCH:". -/
theorem logged_severity_constant_w :
    sampleRowFive.severity =
      (if strContains sampleResultFive.response sentinelTok then 5
       else 3) :=
  (logged_severity_constant [] "hi" (Except.ok ["SEARCH: cream"])
    (fun _ => Except.ok []) (Except.ok ()) "t1" "t2" sampleResultFive
    (by decide) sampleRowFive (by decide)).1

end DermaAI
